import Mathlib

/-!
Shallow embedding of the parametric EQ visualizer core
(src/src/components/ParametricEQ.vue and the throttle utility).

JavaScript numbers are modelled as real numbers.  The custom-filter branch
of `getFilterGain` can return the JavaScript value `-Infinity`, so gain
values are modelled in the extended reals `EReal`, with the finite cases
coerced from `ℝ` and `-Infinity` modelled by `⊥`.

The d3 scale objects are external collaborators of the component; the
log x-scale with domain [10, 20000] is embedded concretely
(`xScaleInvert`), while the drag handlers that merely consume
`xScale.invert` / `yScale.invert` outputs are parametrised over the two
inversion functions.

The `setTimeout`-based throttle is embedded as a discrete timed-event
machine: the throttle state is the expiry time of the pending window
(`none` when idle), and a list of timestamped calls is processed in time
order, returning the calls that were forwarded.
-/

namespace EQViz

/-- The filter type tag (the `type` field of a filter object, switched on
by `getFilterGain`). -/
inductive FilterType
  | peaking
  | lowShelf
  | highShelf
  | custom
  deriving DecidableEq

/-- A filter object.  The source uses duck-typed records: the peaking and
shelf types read `hz`, `db`, `q`; the custom type reads the normalized
biquad coefficients `b0, b1, b2, a1, a2`.  Fields a given filter type does
not read default to 0. -/
structure Filter where
  type : FilterType
  hz : ℝ := 0
  db : ℝ := 0
  q : ℝ := 0
  b0 : ℝ := 0
  b1 : ℝ := 0
  b2 : ℝ := 0
  a1 : ℝ := 0
  a2 : ℝ := 0

/-- `const SAMPLE_RATE = 48000` (ParametricEQ.vue line 55). -/
def SAMPLE_RATE : ℝ := 48000

/-- `getFilterGain(filter, freq)` (ParametricEQ.vue lines 57-107).
`Math.log2` is `Real.logb 2`, `Math.log10` is `Real.logb 10`,
`x ** 2` is `x ^ 2`, and the `-Infinity` returned when `magnitude === 0`
is `(⊥ : EReal)`. -/
noncomputable def getFilterGain (f : Filter) (freq : ℝ) : EReal :=
  match f.type with
  | .peaking =>
      if f.q ≤ 0 then ((0 : ℝ) : EReal)
      else
        let x := Real.logb 2 (freq / f.hz) * f.q
        let gain := f.db / (1 + 4 * x * x)
        if 0 < f.db then ((max 0 gain : ℝ) : EReal) else ((min 0 gain : ℝ) : EReal)
  | .lowShelf =>
      let steepness := f.q * 5
      let normalizedFreq := (Real.logb 10 freq - Real.logb 10 f.hz) * steepness
      let factor := 1 / (1 + Real.exp normalizedFreq)
      ((f.db * factor : ℝ) : EReal)
  | .highShelf =>
      let steepness := f.q * 5
      let normalizedFreq := (Real.logb 10 freq - Real.logb 10 f.hz) * steepness
      let factor := 1 / (1 + Real.exp (-normalizedFreq))
      ((f.db * factor : ℝ) : EReal)
  | .custom =>
      let w := 2 * Real.pi * freq / SAMPLE_RATE
      let numReal := f.b0 + f.b1 * Real.cos w + f.b2 * Real.cos (2 * w)
      let numImag := -(f.b1 * Real.sin w) - f.b2 * Real.sin (2 * w)
      let denReal := 1 + f.a1 * Real.cos w + f.a2 * Real.cos (2 * w)
      let denImag := -(f.a1 * Real.sin w) - f.a2 * Real.sin (2 * w)
      let magnitude :=
        Real.sqrt (numReal ^ 2 + numImag ^ 2) / Real.sqrt (denReal ^ 2 + denImag ^ 2)
      if magnitude = 0 then (⊥ : EReal)
      else ((20 * Real.logb 10 magnitude : ℝ) : EReal)

/-- The `magnitude` value computed inside the custom branch of
`getFilterGain` (ParametricEQ.vue lines 87-99), extracted so the
zero-magnitude edge case can be stated. -/
noncomputable def customMagnitude (b0 b1 b2 a1 a2 freq : ℝ) : ℝ :=
  let w := 2 * Real.pi * freq / SAMPLE_RATE
  let numReal := b0 + b1 * Real.cos w + b2 * Real.cos (2 * w)
  let numImag := -(b1 * Real.sin w) - b2 * Real.sin (2 * w)
  let denReal := 1 + a1 * Real.cos w + a2 * Real.cos (2 * w)
  let denImag := -(a1 * Real.sin w) - a2 * Real.sin (2 * w)
  Real.sqrt (numReal ^ 2 + numImag ^ 2) / Real.sqrt (denReal ^ 2 + denImag ^ 2)

/-- `getTotalGain(freq)` (ParametricEQ.vue lines 109-115): a left fold
(`Array.prototype.reduce`) of `total + getFilterGain(filter, freq)` over
the filter list, with initial accumulator 0. -/
noncomputable def getTotalGain (fs : List Filter) (freq : ℝ) : EReal :=
  fs.foldl (fun total f => total + getFilterGain f freq) 0

/-- The Q-handle frequencies computed by `updateHandles`
(ParametricEQ.vue lines 422-424): `symmetryFactor = 1 + 1 / q`,
`qPositions = [hz / symmetryFactor, hz * symmetryFactor]`. -/
noncomputable def updateHandlesQPositions (sf : Filter) : ℝ × ℝ :=
  let symmetryFactor := 1 + 1 / sf.q
  (sf.hz / symmetryFactor, sf.hz * symmetryFactor)

/-- The main-handle drag handler (ParametricEQ.vue lines 319-329), as the
update it performs on the selected filter.  `invX` and `invY` are
`xScale.invert` and `yScale.invert` of the collaborating d3 scales, and
`ex`, `ey` are the drag event coordinates. -/
noncomputable def handleDragUpdate (invX invY : ℝ → ℝ) (sf : Filter) (ex ey : ℝ) : Filter :=
  let hz2 := max 20 (min 20000 (invX ex))
  let draggedDb := invY ey
  let db2 :=
    if sf.type = FilterType.peaking then max (-25) (min 25 draggedDb)
    else max (-25) (min 25 (draggedDb * 2))
  { sf with hz := hz2, db := db2 }

/-- The Q-handle drag handler (ParametricEQ.vue lines 365-383), as the
update it performs on the selected filter.  `d` is the handle datum
(0 = left, 1 = right) and `handleFreq` is the dragged handle frequency
(`xScale.invert(event.x + 12)` in the source). -/
noncomputable def qDragUpdate (sf : Filter) (d : ℕ) (handleFreq : ℝ) : Filter :=
  let symmetryFactor :=
    if d = 1 then max 1.001 (handleFreq / sf.hz)
    else max 1.001 (sf.hz / handleFreq)
  let newQ := 1 / (symmetryFactor - 1)
  { sf with q := max 0.1 (min 20 newQ) }

/-- `d3.range(0, stop, 2)`: the values `0, 2, 4, …` below `stop`; its
length is `⌈stop / 2⌉` (clamped at 0). -/
noncomputable def d3range2 (stop : ℝ) : List ℝ :=
  (List.range (⌈stop / 2⌉.toNat)).map (fun i => 2 * (i : ℝ))

/-- `xScale.invert` for `d3.scaleLog().domain([10, 20000]).range([0, w])`
(ParametricEQ.vue line 136): linear interpolation in log10 space mapped
back through `10 ^ ·`. -/
noncomputable def xScaleInvert (w x : ℝ) : ℝ :=
  (10 : ℝ) ^ (Real.logb 10 10 + x / w * (Real.logb 10 20000 - Real.logb 10 10))

/-- The total-curve sample list built by `updateCurves`
(ParametricEQ.vue lines 205-211): one `(freq, db)` point per pixel column
`x` of `d3.range(0, innerWidth, 2)`, with `freq = xScale.invert(x)` and
`db = getTotalGain(freq)`. -/
noncomputable def updateCurvesLineData (fs : List Filter) (w : ℝ) : List (ℝ × EReal) :=
  (d3range2 w).map (fun x => (xScaleInvert w x, getTotalGain fs (xScaleInvert w x)))

/-- The selected-filter sample list built by `updateCurves`
(ParametricEQ.vue lines 214-221): same pixel columns, with
`db = getFilterGain(selectedFilter, freq)`. -/
noncomputable def updateCurvesSelectedData (sf : Filter) (w : ℝ) : List (ℝ × EReal) :=
  (d3range2 w).map (fun x => (xScaleInvert w x, getFilterGain sf (xScaleInvert w x)))

/-- The `throttle(func, limit)` utility under its discrete timed-event
semantics.  The state is the `setTimeout` expiry instant of the open
window (`none` when `inThrottle` is false).  A call at time `t` first
lets an elapsed timer (`e ≤ t`) clear `inThrottle`; then, if idle, the
call is forwarded and a window `[t, t + limit)` opens, otherwise the call
is dropped.  The result lists the forwarded calls. -/
noncomputable def throttleRun {V : Type _} (limit : ℝ) :
    Option ℝ → List (ℝ × V) → List (ℝ × V)
  | _, [] => []
  | none, (t, v) :: rest => (t, v) :: throttleRun limit (some (t + limit)) rest
  | some e, (t, v) :: rest =>
      if e ≤ t then (t, v) :: throttleRun limit (some (t + limit)) rest
      else throttleRun limit (some e) rest

/-- The drag-relevant component state: the internal working copy
(`internalFilters`), the external authoritative copy (`filters`), the
`isDragging` flag and the throttle window state. -/
structure EQState where
  internalFilters : List Filter
  externalFilters : List Filter
  isDragging : Bool
  throttleExpiry : Option ℝ

/-- The drag `end` handler (ParametricEQ.vue lines 348-352 and 402-406):
`isDragging.value = false; filters.value = internalFilters.value` — a
direct write that does not go through the throttle. -/
def dragEndHandler (s : EQState) : EQState :=
  { s with isDragging := false, externalFilters := s.internalFilters }

/-- Claim C3: `getTotalGain` is the arithmetic sum, starting from 0, of
`getFilterGain` over every filter in the set (linear dB addition). -/
theorem getTotalGain_eq_sum (fs : List Filter) (freq : ℝ) :
    getTotalGain fs freq = (fs.map (fun f => getFilterGain f freq)).sum := by
  rw [List.sum_eq_foldl, List.foldl_map]
  rfl

/-- Claim C9: a Q-handle drag modifies only `q`; `hz`, `db`, the type tag
and the biquad coefficients of the selected filter are all preserved. -/
theorem qDrag_only_changes_q (sf : Filter) (d : ℕ) (handleFreq : ℝ) :
    (qDragUpdate sf d handleFreq).hz = sf.hz ∧
    (qDragUpdate sf d handleFreq).db = sf.db ∧
    (qDragUpdate sf d handleFreq).type = sf.type ∧
    (qDragUpdate sf d handleFreq).b0 = sf.b0 ∧
    (qDragUpdate sf d handleFreq).b1 = sf.b1 ∧
    (qDragUpdate sf d handleFreq).b2 = sf.b2 ∧
    (qDragUpdate sf d handleFreq).a1 = sf.a1 ∧
    (qDragUpdate sf d handleFreq).a2 = sf.a2 :=
  ⟨rfl, rfl, rfl, rfl, rfl, rfl, rfl, rfl⟩

/-- Claim C5: a Q-handle drag sets `q` to
`clamp(1 / (symmetryFactor - 1), 0.1, 20)` with
`symmetryFactor = max(1.001, handleFreq / hz)` for the right handle and
`max(1.001, hz / handleFreq)` for the left; for the filter
`{hz: 1000, q: 2}` the forward handle positions are `2000/3 ≈ 666.67` Hz
and `1500` Hz, and dragging the right handle to `2000` Hz gives
`symmetryFactor = 2` and updated `q = 1`. -/
theorem qDrag_update_spec :
    (∀ (sf : Filter) (d : ℕ) (handleFreq : ℝ),
        (qDragUpdate sf d handleFreq).q =
          max 0.1 (min 20 (1 /
            ((if d = 1 then max 1.001 (handleFreq / sf.hz)
              else max 1.001 (sf.hz / handleFreq)) - 1)))) ∧
    updateHandlesQPositions { type := .peaking, hz := 1000, db := 0, q := 2 } =
      (2000 / 3, 1500) ∧
    |(2000 : ℝ) / 3 - 666.67| < 0.005 ∧
    max 1.001 ((2000 : ℝ) / 1000) = 2 ∧
    (qDragUpdate { type := .peaking, hz := 1000, db := 0, q := 2 } 1 2000).q = 1 := by
  refine ⟨fun sf d handleFreq => rfl, ?_, ?_, ?_, ?_⟩
  · unfold updateHandlesQPositions
    norm_num [Prod.ext_iff]
  · rw [abs_lt]
    constructor <;> norm_num
  · rw [max_eq_right] <;> norm_num
  · unfold qDragUpdate
    norm_num [max_def, min_def]

/-- Claim C10: for shared `(hz, db, q)` the low-shelf and high-shelf
gains are complementary at every frequency: the two logistic factors
`1/(1+e^n)` and `1/(1+e^{-n})` sum to 1, so the pair contributes a flat
`db`. -/
theorem shelf_pair_sums_to_db (hz db q freq : ℝ) :
    getFilterGain { type := .lowShelf, hz := hz, db := db, q := q } freq +
      getFilterGain { type := .highShelf, hz := hz, db := db, q := q } freq =
      ((db : ℝ) : EReal) := by
  simp only [getFilterGain]
  rw [← EReal.coe_add, EReal.coe_eq_coe_iff]
  set n := (Real.logb 10 freq - Real.logb 10 hz) * (q * 5) with hn
  have hp : (0:ℝ) < Real.exp n := Real.exp_pos _
  have h1 : (1:ℝ) + Real.exp n ≠ 0 := by positivity
  have h2 : (1:ℝ) + (Real.exp n)⁻¹ ≠ 0 := by positivity
  rw [Real.exp_neg]
  field_simp
  ring

/-- Claim C1: for `q ∈ [0.1, 20]` and `hz ∈ [20, 20000]`, computing the
two Q-handle frequencies by the forward mapping and feeding each back
through the inverse Q-drag mapping recovers the original `q` within
`1e-6` (in fact exactly). -/
theorem qHandle_roundtrip (sf : Filter)
    (hq1 : 0.1 ≤ sf.q) (hq2 : sf.q ≤ 20) (hhz1 : 20 ≤ sf.hz) (hhz2 : sf.hz ≤ 20000) :
    |(qDragUpdate sf 1 (updateHandlesQPositions sf).2).q - sf.q| ≤ 1e-6 ∧
    |(qDragUpdate sf 0 (updateHandlesQPositions sf).1).q - sf.q| ≤ 1e-6 := by
  have hq0 : (0:ℝ) < sf.q := by linarith
  have hhz0 : (0:ℝ) < sf.hz := by linarith
  have hinv : (1:ℝ) / 20 ≤ 1 / sf.q := one_div_le_one_div_of_le hq0 hq2
  have hs : (1.001:ℝ) ≤ 1 + 1 / sf.q := by linarith
  have hsym : 1 + 1 / sf.q - 1 = 1 / sf.q := by ring
  have hclamp : max 0.1 (min 20 sf.q) = sf.q := by
    rw [min_eq_right hq2, max_eq_right hq1]
  constructor
  · have e2 : (qDragUpdate sf 1 (updateHandlesQPositions sf).2).q =
        max 0.1 (min 20 (1 / (max 1.001 (sf.hz * (1 + 1 / sf.q) / sf.hz) - 1))) := rfl
    rw [e2, mul_div_cancel_left₀ _ (ne_of_gt hhz0), max_eq_right hs, hsym,
      one_div_one_div, hclamp, sub_self, abs_zero]
    norm_num
  · have hsp : (0:ℝ) < 1 + 1 / sf.q := by positivity
    have e2 : (qDragUpdate sf 0 (updateHandlesQPositions sf).1).q =
        max 0.1 (min 20 (1 / (max 1.001 (sf.hz / (sf.hz / (1 + 1 / sf.q))) - 1))) := rfl
    have hdd : sf.hz / (sf.hz / (1 + 1 / sf.q)) = 1 + 1 / sf.q := by
      rw [div_div_eq_mul_div, mul_div_cancel_left₀ _ (ne_of_gt hhz0)]
    rw [e2, hdd, max_eq_right hs, hsym, one_div_one_div, hclamp, sub_self, abs_zero]
    norm_num

/-- Witness for C1 at the concrete filter `{hz: 1000, q: 2}`. -/
theorem qHandle_roundtrip_witness :
    |(qDragUpdate { type := FilterType.peaking, hz := 1000, db := 0, q := 2 } 1
        (updateHandlesQPositions
          { type := FilterType.peaking, hz := 1000, db := 0, q := 2 }).2).q - (2:ℝ)| ≤ 1e-6 :=
  (qHandle_roundtrip { type := FilterType.peaking, hz := 1000, db := 0, q := 2 }
    (by norm_num) (by norm_num) (by norm_num) (by norm_num)).1

/-- Claim C2: peaking gain is `db / (1 + 4x²)` with
`x = log2(freq / hz) * q`, clamped toward zero by the sign of `db`;
it equals `db` exactly at `freq = hz`; `{hz:1000, db:6, q:1}` gives
`6.0` at 1000 Hz and `1.2` at 2000 Hz; and `q ≤ 0` yields 0. -/
theorem peaking_gain_spec (hz db q freq : ℝ) :
    (q ≤ 0 →
      getFilterGain { type := .peaking, hz := hz, db := db, q := q } freq = ((0:ℝ) : EReal)) ∧
    (0 < q →
      getFilterGain { type := .peaking, hz := hz, db := db, q := q } freq =
        (((if 0 < db
            then max 0 (db / (1 + 4 * (Real.logb 2 (freq / hz) * q) ^ 2))
            else min 0 (db / (1 + 4 * (Real.logb 2 (freq / hz) * q) ^ 2))) : ℝ) : EReal)) ∧
    (0 < q →
      getFilterGain { type := .peaking, hz := hz, db := db, q := q } hz = ((db : ℝ) : EReal)) ∧
    getFilterGain { type := .peaking, hz := 1000, db := 6, q := 1 } 1000 = ((6:ℝ) : EReal) ∧
    getFilterGain { type := .peaking, hz := 1000, db := 6, q := 1 } 2000 = ((1.2:ℝ) : EReal) := by
  have hx0 : ∀ h : ℝ, Real.logb 2 (h / h) = 0 := by
    intro h
    rcases eq_or_ne h 0 with h0 | h0
    · rw [h0, div_zero, Real.logb_zero]
    · rw [div_self h0, Real.logb_one]
  refine ⟨?_, ?_, ?_, ?_, ?_⟩
  · intro hq
    simp [getFilterGain, hq]
  · intro hq
    simp only [getFilterGain, if_neg (not_le.mpr hq)]
    split_ifs with hdb <;> rw [EReal.coe_eq_coe_iff] <;> rw [pow_two] <;> ring_nf
  · intro hq
    simp only [getFilterGain, if_neg (not_le.mpr hq), hx0, zero_mul, mul_zero,
      add_zero, div_one]
    split_ifs with hdb
    · rw [max_eq_right (le_of_lt hdb)]
    · rw [min_eq_right (le_of_not_lt hdb)]
  · have h1 : (1000:ℝ) / 1000 = 1 := by norm_num
    simp only [getFilterGain, if_neg (by norm_num : ¬ (1:ℝ) ≤ 0), h1, Real.logb_one]
    rw [if_pos (by norm_num : (0:ℝ) < 6), EReal.coe_eq_coe_iff]
    norm_num [max_def]
  · have h1 : (2000:ℝ) / 1000 = 2 := by norm_num
    have h2 : Real.logb 2 2 = 1 := Real.logb_self_eq_one (by norm_num)
    simp only [getFilterGain, if_neg (by norm_num : ¬ (1:ℝ) ≤ 0), h1, h2]
    rw [if_pos (by norm_num : (0:ℝ) < 6), EReal.coe_eq_coe_iff]
    norm_num [max_def]

/-- Witness for C2: the gain of `{hz:1000, db:6, q:1}` at its own center
frequency is exactly `6`, instantiating the `0 < q` hypothesis. -/
theorem peaking_gain_spec_witness :
    getFilterGain { type := FilterType.peaking, hz := 1000, db := 6, q := 1 } 1000 =
      ((6:ℝ) : EReal) :=
  (peaking_gain_spec 1000 6 1 1000).2.2.1 (by norm_num)

/-- Claim C4: a main-handle drag on a non-custom filter sets
`hz = clamp(invX(ex), 20, 20000)` and `db = clamp(invY(ey), -25, 25)` for
peaking (doubling the raw value first for shelf types), and modifies no
other parameter. -/
theorem handleDrag_update_spec (invX invY : ℝ → ℝ) (sf : Filter) (ex ey : ℝ)
    (hne : sf.type ≠ FilterType.custom) :
    (handleDragUpdate invX invY sf ex ey).hz = max 20 (min 20000 (invX ex)) ∧
    (sf.type = FilterType.peaking →
      (handleDragUpdate invX invY sf ex ey).db = max (-25) (min 25 (invY ey))) ∧
    (sf.type = FilterType.lowShelf ∨ sf.type = FilterType.highShelf →
      (handleDragUpdate invX invY sf ex ey).db = max (-25) (min 25 (invY ey * 2))) ∧
    (handleDragUpdate invX invY sf ex ey).q = sf.q ∧
    (handleDragUpdate invX invY sf ex ey).type = sf.type ∧
    (handleDragUpdate invX invY sf ex ey).b0 = sf.b0 ∧
    (handleDragUpdate invX invY sf ex ey).b1 = sf.b1 ∧
    (handleDragUpdate invX invY sf ex ey).b2 = sf.b2 ∧
    (handleDragUpdate invX invY sf ex ey).a1 = sf.a1 ∧
    (handleDragUpdate invX invY sf ex ey).a2 = sf.a2 := by
  refine ⟨rfl, ?_, ?_, rfl, rfl, rfl, rfl, rfl, rfl, rfl⟩
  · intro h
    simp [handleDragUpdate, h]
  · intro h
    rcases h with h | h <;> simp [handleDragUpdate, h]

/-- Witness for C4 at a concrete peaking filter with identity inversion
functions, instantiating the non-custom hypothesis. -/
theorem handleDrag_update_spec_witness :
    (handleDragUpdate id id { type := FilterType.peaking, hz := 500, db := 0, q := 1 }
        1000 10).db = max (-25) (min 25 10) :=
  (handleDrag_update_spec id id { type := FilterType.peaking, hz := 500, db := 0, q := 1 }
    1000 10 (by decide)).2.1 rfl

/-- The custom branch of `getFilterGain`, written through
`customMagnitude`; it holds definitionally for any filter whose type tag
is `custom`. -/
theorem getFilterGain_custom (f : Filter) (freq : ℝ) (h : f.type = FilterType.custom) :
    getFilterGain f freq =
      if customMagnitude f.b0 f.b1 f.b2 f.a1 f.a2 freq = 0 then (⊥ : EReal)
      else ((20 * Real.logb 10 (customMagnitude f.b0 f.b1 f.b2 f.a1 f.a2 freq) : ℝ) : EReal) := by
  obtain ⟨ty, hz, db, q, b0, b1, b2, a1, a2⟩ := f
  cases h
  rfl

/-- Claim C8: for a custom filter, `getFilterGain` returns `-Infinity`
(`⊥`) exactly when the biquad magnitude is 0, and
`20 * log10(magnitude)` otherwise. -/
theorem custom_gain_spec (b0 b1 b2 a1 a2 freq : ℝ) :
    (customMagnitude b0 b1 b2 a1 a2 freq = 0 →
      getFilterGain { type := .custom, b0 := b0, b1 := b1, b2 := b2, a1 := a1, a2 := a2 }
        freq = (⊥ : EReal)) ∧
    (customMagnitude b0 b1 b2 a1 a2 freq ≠ 0 →
      getFilterGain { type := .custom, b0 := b0, b1 := b1, b2 := b2, a1 := a1, a2 := a2 }
        freq =
        ((20 * Real.logb 10 (customMagnitude b0 b1 b2 a1 a2 freq) : ℝ) : EReal)) := by
  constructor <;> intro h <;> rw [getFilterGain_custom _ _ rfl]
  · rw [if_pos h]
  · rw [if_neg h]

/-- Witness for C8: the all-zero-numerator biquad has magnitude 0 at
100 Hz, so its gain is `⊥` (the model of JavaScript `-Infinity`). -/
theorem custom_gain_spec_witness :
    getFilterGain
      { type := FilterType.custom, b0 := 0, b1 := 0, b2 := 0, a1 := 0, a2 := 0 } 100 =
      (⊥ : EReal) :=
  (custom_gain_spec 0 0 0 0 0 100).1 (by norm_num [customMagnitude])

/-- Claim C6: the sampled curves take one point per pixel column
`x = 0, 2, 4, …` below the width, each with frequency obtained by
inverting the log scale with fixed domain `[10, 20000]`, and gain
`getTotalGain` (full curve) respectively `getFilterGain` of the selected
filter (highlight curve); the scale inversion fixes `x = 0` to 10 Hz and
`x = w` to 20000 Hz. -/
theorem updateCurves_spec (fs : List Filter) (sf : Filter) (w : ℝ) :
    updateCurvesLineData fs w =
      (List.range (⌈w / 2⌉.toNat)).map (fun i =>
        (xScaleInvert w (2 * (i : ℝ)),
         getTotalGain fs (xScaleInvert w (2 * (i : ℝ))))) ∧
    updateCurvesSelectedData sf w =
      (List.range (⌈w / 2⌉.toNat)).map (fun i =>
        (xScaleInvert w (2 * (i : ℝ)),
         getFilterGain sf (xScaleInvert w (2 * (i : ℝ))))) ∧
    (∀ x, xScaleInvert w x =
      (10 : ℝ) ^ (Real.logb 10 10 + x / w * (Real.logb 10 20000 - Real.logb 10 10))) ∧
    xScaleInvert w 0 = 10 ∧
    (w ≠ 0 → xScaleInvert w w = 20000) := by
  have hb : Real.logb 10 10 = 1 := Real.logb_self_eq_one (by norm_num)
  refine ⟨?_, ?_, fun x => rfl, ?_, ?_⟩
  · simp [updateCurvesLineData, d3range2, List.map_map, Function.comp]
  · simp [updateCurvesSelectedData, d3range2, List.map_map, Function.comp]
  · simp [xScaleInvert, hb]
  · intro hw
    have hexp : Real.logb 10 10 + w / w * (Real.logb 10 20000 - Real.logb 10 10) =
        Real.logb 10 20000 := by
      rw [div_self hw, hb]
      ring
    unfold xScaleInvert
    rw [hexp]
    exact Real.rpow_logb (by norm_num) (by norm_num) (by norm_num)

/-- Witness for C6: with width 800, the last domain bound is hit —
`xScaleInvert 800 800 = 20000`, instantiating the `w ≠ 0` hypothesis. -/
theorem updateCurves_spec_witness : xScaleInvert 800 800 = 20000 :=
  (updateCurves_spec [] { type := FilterType.peaking } 800).2.2.2.2 (by norm_num)

/-- Unfolding equation of `throttleRun` in the idle state: the call at
the head of the burst is forwarded and a window opens. -/
theorem throttleRun_none_cons {V : Type} (limit t : ℝ) (v : V) (rest : List (ℝ × V)) :
    throttleRun limit none ((t, v) :: rest) =
      (t, v) :: throttleRun limit (some (t + limit)) rest := rfl

/-- Calls that all arrive strictly before the open window's expiry are
dropped. -/
theorem throttleRun_some_drop {V : Type} (limit e : ℝ) (l : List (ℝ × V))
    (h : ∀ p ∈ l, p.1 < e) : throttleRun limit (some e) l = [] := by
  induction l with
  | nil => rfl
  | cons p rest ih =>
      obtain ⟨t, v⟩ := p
      have ht : t < e := h (t, v) (List.mem_cons_self _ _)
      show (if e ≤ t then (t, v) :: throttleRun limit (some (t + limit)) rest
            else throttleRun limit (some e) rest) = []
      rw [if_neg (not_le.mpr ht)]
      exact ih (fun p hp => h p (List.mem_cons_of_mem _ hp))

/-- Claim C7: the update throttle is leading-edge with a 50 ms window —
the first change of a burst is forwarded immediately, changes arriving
before the window elapses are dropped (not queued), for changes at
`t = 0, 10, 20` ms only the one at `t = 0` propagates, and the drag-end
handler always writes the internal state through unthrottled. -/
theorem throttle_spec :
    (∀ (V : Type) (limit t : ℝ) (v : V) (rest : List (ℝ × V)),
        (throttleRun limit none ((t, v) :: rest)).head? = some (t, v)) ∧
    (∀ (V : Type) (limit t0 : ℝ) (v0 : V) (rest : List (ℝ × V)),
        (∀ p ∈ rest, p.1 < t0 + limit) →
        throttleRun limit none ((t0, v0) :: rest) = [(t0, v0)]) ∧
    (∀ (V : Type) (a b c : V),
        throttleRun 50 none [((0:ℝ), a), (10, b), (20, c)] = [(0, a)]) ∧
    (∀ s : EQState, (dragEndHandler s).externalFilters = s.internalFilters ∧
        (dragEndHandler s).isDragging = false) := by
  refine ⟨?_, ?_, ?_, fun s => ⟨rfl, rfl⟩⟩
  · intro V limit t v rest
    rw [throttleRun_none_cons]
    rfl
  · intro V limit t0 v0 rest h
    rw [throttleRun_none_cons, throttleRun_some_drop limit (t0 + limit) rest h]
  · intro V a b c
    rw [throttleRun_none_cons, throttleRun_some_drop]
    intro p hp
    simp only [List.mem_cons, List.not_mem_nil, or_false] at hp
    rcases hp with h | h <;> subst h <;> norm_num

/-- Witness for C7: the burst at `t = 0, 10, 20` with a 50 ms window
forwards only the first call, instantiating the in-window hypothesis. -/
theorem throttle_spec_witness :
    throttleRun 50 none [((0:ℝ), (1:ℕ)), (10, 2), (20, 3)] = [(0, 1)] :=
  throttle_spec.2.1 ℕ 50 0 1 [(10, 2), (20, 3)] (by
    intro p hp
    simp only [List.mem_cons, List.not_mem_nil, or_false] at hp
    rcases hp with h | h <;> subst h <;> norm_num)

end EQViz
